import Mathlib

/-!
A shallow embedding of the RIFF container reader of the immeta library
(src/common/riff.rs) together with the generic format dispatcher
(src/generic.rs), and theorems about their behaviour.

The byte source is modelled as a `List Nat` of byte values.  A bounded
view over the source (a `Take` wrapper in the Rust code) is modelled by
carrying the remaining byte limit alongside the remaining stream.  The
shared mutable counter (`Counter` in riff.rs) that lets a child chunk's
reads update its parent list's `cur_chunk_read` field is modelled by
operating on the child chunk and the parent list together: a read
through a child's payload view is a function of the pair.
-/

namespace Immeta

/-- Error type of the library.  Modelled from the spec: the `Error` enum of
`types.rs` (and its conversion from I/O errors) is not under `src/`.  Per
spec §7 there is an invalid-format error carrying a descriptive message and
an unexpected-end-of-input error carrying an optional context message; an
underlying I/O failure other than end of input cannot occur for a pure
in-memory source, so it has no constructor here. -/
inductive Error where
  | invalidFormat (msg : String)
  | unexpectedEOF (msg : Option String)
deriving Repr, DecidableEq

/-- `ChunkId` (riff.rs lines 11-12) is four raw bytes; we model a byte as a
`Nat` (below 256 in any well-formed stream). -/
abbrev ChunkId := List Nat

/-- The bytes of `b"RIFF"`. -/
def RIFF_TAG : ChunkId := [82, 73, 70, 70]

/-- The bytes of `b"LIST"`. -/
def LIST_TAG : ChunkId := [76, 73, 83, 84]

/-- Modelled from the spec: `read_exact_0` of `utils.rs` (not under `src/`)
fills a buffer of size `n` from the source, looping until the buffer is full
or the source is exhausted, and returns the bytes actually obtained: all `n`
when available, fewer only at end of input (`0` on clean end of input).
The view read from is a `Take`-bounded window: at most `lim` bytes of the
remaining stream `s` are obtainable.  Returns the bytes read, the remaining
stream and the remaining limit. -/
def read_exact_0 (s : List Nat) (lim n : Nat) : List Nat × List Nat × Nat :=
  let k := min n (min lim s.length)
  (s.take k, s.drop k, lim - k)

/-- Modelled from the spec: `skip_exact_0` of `utils.rs` (not under `src/`)
skips up to `n` bytes from the view and returns how many bytes were actually
skipped (all `n` unless the view is exhausted first), together with the
remaining stream and limit. -/
def skip_exact_0 (s : List Nat) (lim n : Nat) : Nat × List Nat × Nat :=
  let k := min n (min lim s.length)
  (k, s.drop k, lim - k)

/-- Little-endian 32-bit value from four bytes. -/
def le32 (b0 b1 b2 b3 : Nat) : Nat :=
  b0 + 256 * (b1 + 256 * (b2 + 256 * b3))

/-- `read_u32::<LittleEndian>` from the byteorder crate, over the bounded
view: reads exactly 4 bytes, failing with an unexpected-end-of-input error
when fewer than 4 bytes are obtainable (the library converts the underlying
I/O `UnexpectedEof` into its own unexpected-end-of-input error; spec §7).
On failure the view position is left unspecified by the Rust contract and
unused by the callers, so the model leaves it at the pre-call position. -/
def read_u32_le (s : List Nat) (lim : Nat) : Except Error (Nat × List Nat × Nat) :=
  if lim < 4 then .error (.unexpectedEOF none)
  else
    match s with
    | b0 :: b1 :: b2 :: b3 :: rest => .ok (le32 b0 b1 b2 b3, rest, lim - 4)
    | _ => .error (.unexpectedEOF none)

/-- `read_id_and_len` (riff.rs lines 201-213): reads a 4-byte chunk
identifier and a little-endian 32-bit length.  Obtaining 0 identifier bytes
yields `none` (no more chunks); 1-3 bytes is an unexpected-end-of-input
error; after a full identifier the length is read with `read_u32_le`.
Returns the outcome together with the remaining stream and limit. -/
def read_id_and_len (s : List Nat) (lim : Nat) :
    Except Error (Option (ChunkId × Nat)) × List Nat × Nat :=
  let r := read_exact_0 s lim 4
  if r.1.length = 0 then (.ok none, r.2.1, r.2.2)
  else if r.1.length = 4 then
    match read_u32_le r.2.1 r.2.2 with
    | .ok (len, s2, lim2) => (.ok (some (r.1, len)), s2, lim2)
    | .error e => (.error e, r.2.1, r.2.2)
  else (.error (.unexpectedEOF none), r.2.1, r.2.2)

/-- `RiffChunk` (riff.rs lines 85-90): identifier, declared length, the
touched flag, and its payload view.  The view is
`Counter(Take(len) over the parent list's data)`; here only the chunk-local
part is stored: `takeRem` is the remaining `Take` limit (initially `len`).
The underlying bytes and the wired counter live in the parent
`RiffListChunk`, so reads are functions of the chunk-list pair
(`chunkRead` below). -/
structure RiffChunk where
  chunk_id : ChunkId
  len : Nat
  tainted : Bool
  takeRem : Nat
deriving Repr, DecidableEq

/-- `RiffListChunk` (riff.rs lines 144-151): identifier, declared length,
type tag, the bounded data view (`stream` are the underlying bytes still
beneath the view, `takeRem` its remaining `Take` limit) and the traversal
cursor `cur_chunk_len` / `cur_chunk_read`. -/
structure RiffListChunk where
  chunk_id : ChunkId
  len : Nat
  chunk_type : ChunkId
  stream : List Nat
  takeRem : Nat
  cur_chunk_len : Nat
  cur_chunk_read : Nat
deriving Repr, DecidableEq

/-- `RiffChunk::contents` (riff.rs lines 103-107): sets the tainted flag and
hands out the payload view; subsequent reads through the view are modelled
by `chunkRead`. -/
def RiffChunk.contents (c : RiffChunk) : RiffChunk :=
  { c with tainted := true }

/-- `RiffChunk::can_have_subchunks` (riff.rs lines 109-112): not tainted and
identifier `RIFF` or `LIST`. -/
def RiffChunk.can_have_subchunks (c : RiffChunk) : Bool :=
  !c.tainted && (c.chunk_id == RIFF_TAG || c.chunk_id == LIST_TAG)

/-- A read of up to `n` bytes through a child chunk's payload view
(`Counter { delegate: list.data.take(len), counter: Some(cur_chunk_read) }`,
riff.rs lines 189-197 and 74-83): the bytes returned are capped by the
request, the child's `Take` limit, the parent view's `Take` limit and the
bytes available; the bytes consumed are counted into the parent's
`cur_chunk_read`.  Returns the bytes obtained and the updated pair. -/
def chunkRead (c : RiffChunk) (l : RiffListChunk) (n : Nat) :
    List Nat × RiffChunk × RiffListChunk :=
  let k := min n (min c.takeRem (min l.takeRem l.stream.length))
  (l.stream.take k,
   { c with takeRem := c.takeRem - k },
   { l with
      stream := l.stream.drop k
      takeRem := l.takeRem - k
      cur_chunk_read := l.cur_chunk_read + k })

/-- The header-reading tail of `RiffListChunk::next` (riff.rs lines
180-198), entered once any unread remainder of the previous child has been
skipped: read the next identifier and length; `none` ends the iteration,
an error is passed through, and on success the cursor is reset
(`cur_chunk_read = 0`, `cur_chunk_len = len`) and a fresh chunk bounded to
`len` bytes is produced. -/
def RiffListChunk.nextHeader (l : RiffListChunk) :
    Option (Except Error RiffChunk) × RiffListChunk :=
  match read_id_and_len l.stream l.takeRem with
  | (.ok none, s1, lim1) =>
      (none, { l with stream := s1, takeRem := lim1 })
  | (.ok (some (id, len)), s1, lim1) =>
      (some (.ok { chunk_id := id, len := len, tainted := false, takeRem := len }),
       { l with
          stream := s1
          takeRem := lim1
          cur_chunk_read := 0
          cur_chunk_len := len })
  | (.error e, s1, lim1) =>
      (some (.error e), { l with stream := s1, takeRem := lim1 })

/-- `RiffListChunk::next` (riff.rs lines 170-198): if the previous child's
payload was not fully consumed, skip the remaining
`cur_chunk_len - cur_chunk_read` bytes first, failing with an
unexpected-end-of-input error when fewer bytes are obtainable; then read
the next child header (`nextHeader`). -/
def RiffListChunk.next (l : RiffListChunk) :
    Option (Except Error RiffChunk) × RiffListChunk :=
  if l.cur_chunk_read < l.cur_chunk_len then
    let to_skip := l.cur_chunk_len - l.cur_chunk_read
    let r := skip_exact_0 l.stream l.takeRem to_skip
    let l1 := { l with stream := r.2.1, takeRem := r.2.2 }
    if r.1 = to_skip then l1.nextHeader
    else (some (.error (.unexpectedEOF none)), l1)
  else l.nextHeader

/-- `RiffChunk::into_list_unchecked` (riff.rs lines 123-141) for a child
chunk: read exactly 4 bytes through the chunk's payload view as the type
tag (this consumes from the parent's view and counts into the parent's
`cur_chunk_read`); fewer than 4 bytes is an unexpected-end-of-input error
(the Rust message names the chunk; the model keeps the fixed prefix).  On
success the resulting list inherits the chunk's data view (its remaining
`Take` limit) with the cursor zeroed.  Returns the outcome and the updated
parent list. -/
def RiffChunk.into_list_unchecked (c : RiffChunk) (l : RiffListChunk) :
    Except Error RiffListChunk × RiffListChunk :=
  let r := chunkRead c l 4
  if r.1.length = 4 then
    (.ok { chunk_id := c.chunk_id
           len := c.len
           chunk_type := r.1
           stream := r.2.2.stream
           takeRem := r.2.1.takeRem
           cur_chunk_len := 0
           cur_chunk_read := 0 },
     r.2.2)
  else
    (.error (.unexpectedEOF (some "when reading chunk type of chunk")), r.2.2)

/-- `RiffChunk::into_list` (riff.rs lines 114-121): when
`can_have_subchunks` fails, give the original chunk back (`.error c` in the
model; the Rust outer `Err`) without touching the input; otherwise perform
the unchecked conversion. -/
def RiffChunk.into_list (c : RiffChunk) (l : RiffListChunk) :
    Except RiffChunk (Except Error RiffListChunk) × RiffListChunk :=
  if c.can_have_subchunks then
    let r := c.into_list_unchecked l
    (.ok r.1, r.2)
  else (.error c, l)

/-- `RiffReader::root` (riff.rs lines 46-66): read the outer identifier and
length from the raw source (no `Take` bound: the limit is the source length
itself, which never binds); `none` from `read_id_and_len` becomes an
unexpected-end-of-input error; an identifier other than `RIFF` is an
invalid-format error; otherwise the outer chunk, bounded to `len` bytes,
is converted with the unchecked into-list conversion (the 4-byte type tag
is read from its payload view, whose counter is absent for the root). -/
def root (source : List Nat) : Except Error RiffListChunk :=
  match read_id_and_len source source.length with
  | (.ok none, _, _) => .error (.unexpectedEOF none)
  | (.error e, _, _) => .error e
  | (.ok (some (id, len)), s1, _) =>
      if id ≠ RIFF_TAG then .error (.invalidFormat "RIFF file header is invalid")
      else
        let r := read_exact_0 s1 len 4
        if r.1.length = 4 then
          .ok { chunk_id := id
                len := len
                chunk_type := r.1
                stream := r.2.1
                takeRem := r.2.2
                cur_chunk_len := 0
                cur_chunk_read := 0 }
        else .error (.unexpectedEOF (some "when reading chunk type of chunk"))

/-- Total byte count obtainable from a child chunk's payload view over a
sequence of read requests (each entry the size of one read call). -/
def chunkReadMany (c : RiffChunk) (l : RiffListChunk) : List Nat → Nat
  | [] => 0
  | n :: ns =>
      let r := chunkRead c l n
      r.1.length + chunkReadMany r.2.1 r.2.2 ns

/-- An operation a caller can perform on a produced chunk: obtain the
payload view (`contents`) or read up to `n` bytes through it. -/
inductive ChunkOp where
  | viewContents
  | readBytes (n : Nat)
deriving Repr, DecidableEq

/-- Apply a sequence of chunk operations to a chunk and its parent list. -/
def applyChunkOps : List ChunkOp → RiffChunk → RiffListChunk → RiffChunk × RiffListChunk
  | [], c, l => (c, l)
  | .viewContents :: ops, c, l => applyChunkOps ops c.contents l
  | .readBytes n :: ops, c, l =>
      let r := chunkRead c l n
      applyChunkOps ops r.2.1 r.2.2

/-- `GenericMetadata` (generic.rs lines 229-235); the four per-format
metadata types live in `src/formats` and are opaque to the dispatcher, so
they are type parameters here. -/
inductive GenericMetadata (P G J W : Type) where
  | Png : P → GenericMetadata P G J W
  | Gif : G → GenericMetadata P G J W
  | Jpeg : J → GenericMetadata P G J W
  | Webp : W → GenericMetadata P G J W
deriving DecidableEq

/-- `load` (generic.rs lines 283-309): try the decoders in the order PNG,
GIF, WEBP, JPEG, rewinding the source to the start before each attempt
(each decoder is applied to the whole source `s`); return the first
success wrapped in the matching variant, and an invalid-format error when
every attempt fails.  The decoders themselves live in `src/formats` and are
passed as parameters. -/
def load {P G J W : Type}
    (pngLoad : List Nat → Except Error P) (gifLoad : List Nat → Except Error G)
    (webpLoad : List Nat → Except Error W) (jpegLoad : List Nat → Except Error J)
    (s : List Nat) : Except Error (GenericMetadata P G J W) :=
  match pngLoad s with
  | .ok md => .ok (.Png md)
  | .error _ =>
      match gifLoad s with
      | .ok md => .ok (.Gif md)
      | .error _ =>
          match webpLoad s with
          | .ok md => .ok (.Webp md)
          | .error _ =>
              match jpegLoad s with
              | .ok md => .ok (.Jpeg md)
              | .error _ => .error (.invalidFormat "unknown or unsupported image type")

/-- The four little-endian bytes of a 32-bit value. -/
def le32b (n : Nat) : List Nat :=
  [n % 256, n / 256 % 256, n / 65536 % 256, n / 16777216 % 256]

/-- A stream whose root (declared length 16) holds one child `A` of declared
length 4 whose payload the caller never reads: after the child is produced,
one `next` call returns no-more-children having silently skipped the
payload, and the call after that fails.  Used to refute the unconditional
idempotent-terminal claim. -/
def c2bytes : List Nat :=
  RIFF_TAG ++ le32b 16 ++ [97, 98, 99, 100] ++
  [65, 32, 32, 32] ++ le32b 4 ++ [49, 50, 51, 52]

/-- The root list produced by `root c2bytes`. -/
def c2list0 : RiffListChunk :=
  { chunk_id := RIFF_TAG
    len := 16
    chunk_type := [97, 98, 99, 100]
    stream := [65, 32, 32, 32, 4, 0, 0, 0, 49, 50, 51, 52]
    takeRem := 12
    cur_chunk_len := 0
    cur_chunk_read := 0 }

/-- State after the first `next` (child `A` produced, payload untouched). -/
def c2list1 : RiffListChunk := (c2list0.next).2

/-- State after the second `next` (which returned no-more-children). -/
def c2list2 : RiffListChunk := (c2list1.next).2

/-- The byte stream of the flat round-trip scenario: root `RIFF` of
declared length 37 with form type `abcd`, child `A   ` of length 4 with
payload `1234`, child `B   ` of length 5 with payload `56789`. -/
def c8bytes : List Nat :=
  RIFF_TAG ++ le32b 37 ++ [97, 98, 99, 100] ++
  [65, 32, 32, 32] ++ le32b 4 ++ [49, 50, 51, 52] ++
  [66, 32, 32, 32] ++ le32b 5 ++ [53, 54, 55, 56, 57]

/-- The root list produced by `root c8bytes`. -/
def c8list0 : RiffListChunk :=
  { chunk_id := RIFF_TAG
    len := 37
    chunk_type := [97, 98, 99, 100]
    stream := [65, 32, 32, 32, 4, 0, 0, 0, 49, 50, 51, 52,
               66, 32, 32, 32, 5, 0, 0, 0, 53, 54, 55, 56, 57]
    takeRem := 33
    cur_chunk_len := 0
    cur_chunk_read := 0 }

/-- Child `A   ` of the flat scenario as produced by the first `next`. -/
def c8childA : RiffChunk :=
  { chunk_id := [65, 32, 32, 32], len := 4, tainted := false, takeRem := 4 }

/-- List state after producing child `A`. -/
def c8list1 : RiffListChunk := (c8list0.next).2

/-- List state after fully reading child `A`'s payload. -/
def c8list2 : RiffListChunk := (chunkRead c8childA.contents c8list1 100).2.2

/-- Child `B   ` of the flat scenario as produced by the second `next`. -/
def c8childB : RiffChunk :=
  { chunk_id := [66, 32, 32, 32], len := 5, tainted := false, takeRem := 5 }

/-- List state after producing child `B`. -/
def c8list3 : RiffListChunk := (c8list2.next).2

/-- List state after fully reading child `B`'s payload. -/
def c8list4 : RiffListChunk := (chunkRead c8childB.contents c8list3 100).2.2

/-- A list state with a partially read current child (2 of its 4 declared
bytes unread) and enough bytes available to skip them. -/
def wSkipOk : RiffListChunk :=
  { chunk_id := RIFF_TAG
    len := 20
    chunk_type := [97, 98, 99, 100]
    stream := [1, 2, 3, 4, 5, 6]
    takeRem := 10
    cur_chunk_len := 4
    cur_chunk_read := 2 }

/-- A list state with an unread remainder (4 bytes) but only 1 byte left. -/
def wSkipShort : RiffListChunk :=
  { chunk_id := RIFF_TAG
    len := 20
    chunk_type := [97, 98, 99, 100]
    stream := [1]
    takeRem := 10
    cur_chunk_len := 5
    cur_chunk_read := 1 }

/-- A list state whose current child was fully consumed. -/
def wConsumed : RiffListChunk :=
  { chunk_id := RIFF_TAG
    len := 20
    chunk_type := [97, 98, 99, 100]
    stream := [65, 66, 67, 68, 9, 0, 0, 0]
    takeRem := 8
    cur_chunk_len := 3
    cur_chunk_read := 3 }

/-- An exhausted terminal list state whose last child was fully consumed. -/
def wTerminal : RiffListChunk :=
  { chunk_id := RIFF_TAG
    len := 20
    chunk_type := [97, 98, 99, 100]
    stream := []
    takeRem := 0
    cur_chunk_len := 3
    cur_chunk_read := 3 }

/-- An untainted `LIST`-tagged chunk with a 9-byte bounded payload view. -/
def wListChunk : RiffChunk :=
  { chunk_id := LIST_TAG, len := 9, tainted := false, takeRem := 9 }

/-- A parent list state with plenty of bytes beneath the view. -/
def wParent : RiffListChunk :=
  { chunk_id := RIFF_TAG
    len := 40
    chunk_type := [97, 98, 99, 100]
    stream := [104, 105, 32, 32, 7, 7, 7, 7, 7, 7, 7, 7]
    takeRem := 20
    cur_chunk_len := 9
    cur_chunk_read := 0 }

/-! ## Helper lemmas -/

/-- A read that fits inside the view returns exactly the requested bytes. -/
theorem read_exact_0_all (s : List Nat) (lim n : Nat) (h : n ≤ min lim s.length) :
    read_exact_0 s lim n = (s.take n, s.drop n, lim - n) := by
  have hk : min n (min lim s.length) = n := by omega
  simp [read_exact_0, hk]

/-- Reading a 32-bit value succeeds when the view holds at least 4 bytes. -/
theorem read_u32_le_ok (b0 b1 b2 b3 : Nat) (rest : List Nat) (lim : Nat) (h : 4 ≤ lim) :
    read_u32_le (b0 :: b1 :: b2 :: b3 :: rest) lim =
      .ok (le32 b0 b1 b2 b3, rest, lim - 4) := by
  have hl : ¬ lim < 4 := by omega
  simp [read_u32_le, hl]

/-- Reading a 32-bit value from a view with fewer than 4 bytes fails. -/
theorem read_u32_le_short (s : List Nat) (lim : Nat) (h : min lim s.length < 4) :
    read_u32_le s lim = .error (.unexpectedEOF none) := by
  by_cases hl : lim < 4
  · simp [read_u32_le, hl]
  · have hs : s.length < 4 := by omega
    rcases s with _ | ⟨a, _ | ⟨b, _ | ⟨c, _ | ⟨d, t⟩⟩⟩⟩
    · simp [read_u32_le, hl]
    · simp [read_u32_le, hl]
    · simp [read_u32_le, hl]
    · simp [read_u32_le, hl]
    · exfalso
      simp [List.length] at hs
      omega

/-- Reading a header from a view holding at least a full 8-byte header. -/
theorem read_id_and_len_cons8 (i0 i1 i2 i3 b0 b1 b2 b3 : Nat) (rest : List Nat)
    (lim : Nat) (h : 8 ≤ lim) :
    read_id_and_len (i0 :: i1 :: i2 :: i3 :: b0 :: b1 :: b2 :: b3 :: rest) lim =
      (.ok (some ([i0, i1, i2, i3], le32 b0 b1 b2 b3)), rest, lim - 8) := by
  have h4 : (4 : Nat) ≤
      min lim (i0 :: i1 :: i2 :: i3 :: b0 :: b1 :: b2 :: b3 :: rest).length := by
    simp
    omega
  have h8 : lim - 4 - 4 = lim - 8 := by omega
  simp only [read_id_and_len]
  rw [read_exact_0_all _ _ _ h4]
  simp [read_u32_le_ok b0 b1 b2 b3 rest (lim - 4) (by omega), h8]

/-- When the header-reading tail produces a chunk, the cursor is reset:
`cur_chunk_read` is zero, `cur_chunk_len` is the chunk's declared length,
and the chunk's view limit starts at that same length. -/
theorem nextHeader_ok_inv (l : RiffListChunk) (c : RiffChunk)
    (h : (l.nextHeader).1 = some (.ok c)) :
    (l.nextHeader).2.cur_chunk_read = 0 ∧ (l.nextHeader).2.cur_chunk_len = c.len ∧
      c.takeRem = c.len := by
  unfold RiffListChunk.nextHeader at h ⊢
  split at h
  case _ s1 lim1 heq =>
    simp at h
  case _ id len s1 lim1 heq =>
    simp only [Option.some.injEq, Except.ok.injEq] at h
    subst h
    simp
  case _ e s1 lim1 heq =>
    simp at h

/-- When `next` produces a chunk, the cursor is reset together with the
chunk's view limit. -/
theorem next_ok_inv (l : RiffListChunk) (c : RiffChunk)
    (h : (l.next).1 = some (.ok c)) :
    (l.next).2.cur_chunk_read = 0 ∧ (l.next).2.cur_chunk_len = c.len ∧
      c.takeRem = c.len := by
  unfold RiffListChunk.next at h ⊢
  by_cases hlt : l.cur_chunk_read < l.cur_chunk_len
  · simp only [if_pos hlt] at h ⊢
    by_cases heq :
        (skip_exact_0 l.stream l.takeRem (l.cur_chunk_len - l.cur_chunk_read)).1 =
          l.cur_chunk_len - l.cur_chunk_read
    · simp only [if_pos heq] at h ⊢
      exact nextHeader_ok_inv _ _ h
    · simp [if_neg heq] at h
  · simp only [if_neg hlt] at h ⊢
    exact nextHeader_ok_inv _ _ h

/-- The total byte count obtainable through a child chunk's view over any
sequence of reads is bounded by the view's remaining limit. -/
theorem chunkReadMany_le_takeRem (reqs : List Nat) :
    ∀ (c : RiffChunk) (l : RiffListChunk), chunkReadMany c l reqs ≤ c.takeRem := by
  induction reqs with
  | nil => intro c l; simp [chunkReadMany]
  | cons n ns ih =>
      intro c l
      simp only [chunkReadMany, chunkRead]
      set k := min n (min c.takeRem (min l.takeRem l.stream.length)) with hk
      have h1 : (l.stream.take k).length ≤ k := by
        simp [List.length_take]
      have h2 : chunkReadMany ⟨c.chunk_id, c.len, c.tainted, c.takeRem - k⟩
          ⟨l.chunk_id, l.len, l.chunk_type, l.stream.drop k, l.takeRem - k,
           l.cur_chunk_len, l.cur_chunk_read + k⟩ ns ≤ c.takeRem - k :=
        ih _ _
      have h3 : k ≤ c.takeRem := by omega
      omega

/-- Applying any sequence of chunk operations never clears the tainted
flag. -/
theorem applyChunkOps_tainted_mono (ops : List ChunkOp) :
    ∀ (c : RiffChunk) (l : RiffListChunk), c.tainted = true →
      (applyChunkOps ops c l).1.tainted = true := by
  induction ops with
  | nil => intro c l h; simpa [applyChunkOps] using h
  | cons op ops ih =>
      intro c l h
      cases op with
      | viewContents => exact ih _ _ (by simp [RiffChunk.contents])
      | readBytes n => exact ih _ _ (by simp [chunkRead, h])

/-- A no-more-chunks outcome from `read_id_and_len` means the view was
exhausted before the call: not even one byte was obtainable. -/
theorem read_id_and_len_none_k0 (s : List Nat) (lim : Nat)
    (h : (read_id_and_len s lim).1 = .ok none) :
    min 4 (min lim s.length) = 0 := by
  by_contra hk
  simp only [read_id_and_len, read_exact_0] at h
  split at h
  case _ hc =>
    have hlen : (s.take (min 4 (min lim s.length))).length =
        min 4 (min lim s.length) := by
      rw [List.length_take]
      omega
    omega
  case _ hc =>
    split at h
    · split at h <;> simp at h
    · simp at h

/-! ## Claim theorems -/

/-- C1: a `next` call first skips exactly the unread remainder
(`cur_chunk_len - cur_chunk_read` bytes) of the previously produced child
from the underlying source and only then reads the following sibling
header, so the header is located correctly whether the previous child's
payload was fully read (no skip), partially read, or never read; when
fewer bytes than the remainder are obtainable, `next` returns an
unexpected-end-of-input error. -/
theorem next_skips_unread_remainder (l : RiffListChunk) :
    (l.cur_chunk_read < l.cur_chunk_len →
      l.cur_chunk_len - l.cur_chunk_read ≤ min l.takeRem l.stream.length →
      l.next = RiffListChunk.nextHeader
        { l with
            stream := l.stream.drop (l.cur_chunk_len - l.cur_chunk_read)
            takeRem := l.takeRem - (l.cur_chunk_len - l.cur_chunk_read) }) ∧
    (l.cur_chunk_len ≤ l.cur_chunk_read → l.next = l.nextHeader) ∧
    (l.cur_chunk_read < l.cur_chunk_len →
      min l.takeRem l.stream.length < l.cur_chunk_len - l.cur_chunk_read →
      (l.next).1 = some (.error (.unexpectedEOF none))) := by
  refine ⟨?_, ?_, ?_⟩
  · intro h h1
    have hk : min (l.cur_chunk_len - l.cur_chunk_read) (min l.takeRem l.stream.length) =
        l.cur_chunk_len - l.cur_chunk_read := by omega
    simp [RiffListChunk.next, skip_exact_0, h, hk]
  · intro h
    have hn : ¬ l.cur_chunk_read < l.cur_chunk_len := by omega
    simp [RiffListChunk.next, hn]
  · intro h h1
    have hk : min (l.cur_chunk_len - l.cur_chunk_read) (min l.takeRem l.stream.length) =
        min l.takeRem l.stream.length := by omega
    have hne : min l.takeRem l.stream.length ≠ l.cur_chunk_len - l.cur_chunk_read := by
      omega
    simp [RiffListChunk.next, skip_exact_0, h, hk, hne]

/-- Witness for C1 at concrete states: a partially read child with enough
bytes to skip, a fully consumed child, and an unread remainder with the
source exhausted early. -/
theorem next_skips_unread_remainder_witness :
    (wSkipOk.next = RiffListChunk.nextHeader
      { wSkipOk with
          stream := wSkipOk.stream.drop (wSkipOk.cur_chunk_len - wSkipOk.cur_chunk_read)
          takeRem := wSkipOk.takeRem - (wSkipOk.cur_chunk_len - wSkipOk.cur_chunk_read) }) ∧
    (wConsumed.next = wConsumed.nextHeader) ∧
    ((wSkipShort.next).1 = some (.error (.unexpectedEOF none))) :=
  ⟨(next_skips_unread_remainder wSkipOk).1 (by decide) (by decide),
   (next_skips_unread_remainder wConsumed).2.1 (by decide),
   (next_skips_unread_remainder wSkipShort).2.2 (by decide) (by decide)⟩

/-- C2 counterexample: after `root c2bytes` produces a list whose single
child `A` (declared length 4) is never read, the second `next` call
returns no-more-children, and the third returns an
unexpected-end-of-input error rather than no-more-children: the claim
that every call after a `none` again returns `none` is false. -/
theorem next_after_none_error_counterexample :
    root c2bytes = .ok c2list0 ∧
    (c2list0.next).1 =
      some (.ok { chunk_id := [65, 32, 32, 32], len := 4, tainted := false, takeRem := 4 }) ∧
    (c2list1.next).1 = none ∧
    (c2list2.next).1 = some (.error (.unexpectedEOF none)) :=
  ⟨rfl, rfl, rfl, rfl⟩

/-- C2 (amended): once `next` has returned no-more-children, every
subsequent call also returns no-more-children, provided the most recently
produced child's payload had been fully consumed
(`cur_chunk_len ≤ cur_chunk_read`) at that point; in that case `next`
returns `none` and leaves the list state unchanged, so the terminal state
is idempotent. -/
theorem next_terminal_of_fully_consumed (l : RiffListChunk)
    (h1 : l.cur_chunk_len ≤ l.cur_chunk_read) (h2 : (l.next).1 = none) :
    l.next = (none, l) := by
  have hn : ¬ l.cur_chunk_read < l.cur_chunk_len := by omega
  simp only [RiffListChunk.next, if_neg hn] at h2 ⊢
  unfold RiffListChunk.nextHeader at h2 ⊢
  split at h2
  case _ s1 lim1 heq =>
    have hk : min 4 (min l.takeRem l.stream.length) = 0 :=
      read_id_and_len_none_k0 _ _ (by rw [heq])
    have hr : read_id_and_len l.stream l.takeRem = (.ok none, l.stream, l.takeRem) := by
      simp [read_id_and_len, read_exact_0, hk]
    rw [hr] at heq
    injection heq with ha hb
    injection hb with hb1 hb2
    subst hb1
    subst hb2
    rfl
  case _ id len s1 lim1 heq => simp at h2
  case _ e s1 lim1 heq => simp at h2

/-- Witness for C2's amended theorem at a concrete exhausted terminal
state. -/
theorem next_terminal_of_fully_consumed_witness :
    wTerminal.next = (none, wTerminal) :=
  next_terminal_of_fully_consumed wTerminal (by decide) (by rfl)

/-- C3: a chunk produced by `next` starts with its payload view limited to
its declared length (`takeRem = len`), and through a view whose remaining
limit is at most the declared length, no sequence of read calls can obtain
more than the declared length in total. -/
theorem payload_view_bounded (l l2 : RiffListChunk) (c : RiffChunk) (reqs : List Nat) :
    ((l.next).1 = some (.ok c) → c.takeRem = c.len) ∧
    (c.takeRem ≤ c.len → chunkReadMany c l2 reqs ≤ c.len) := by
  constructor
  · intro h
    exact (next_ok_inv l c h).2.2
  · intro h
    exact le_trans (chunkReadMany_le_takeRem reqs c l2) h

/-- Witness for C3: child `A` of the flat scenario is produced with
`takeRem = len`, and a greedy read sequence obtains at most 4 bytes. -/
theorem payload_view_bounded_witness :
    c8childA.takeRem = c8childA.len ∧
    chunkReadMany c8childA c8list1 [3, 100, 7] ≤ c8childA.len :=
  ⟨(payload_view_bounded c8list0 c8list1 c8childA [3, 100, 7]).1 rfl,
   (payload_view_bounded c8list0 c8list1 c8childA [3, 100, 7]).2 (by decide)⟩

/-- C4: when reading a child header, obtaining zero bytes is the
no-more-children signal (`.ok none`, and `next` maps it to `none`, not an
error); obtaining 1-3 identifier bytes is an unexpected-end-of-input
error; and a truncated length field after a full 4-byte identifier is
likewise an unexpected-end-of-input error. -/
theorem read_id_and_len_header_eof_cases (s : List Nat) (lim : Nat) (l : RiffListChunk) :
    (min lim s.length = 0 → read_id_and_len s lim = (.ok none, s, lim)) ∧
    (l.cur_chunk_len ≤ l.cur_chunk_read → min l.takeRem l.stream.length = 0 →
      (l.next).1 = none) ∧
    (0 < min lim s.length → min lim s.length < 4 →
      (read_id_and_len s lim).1 = .error (.unexpectedEOF none)) ∧
    (4 ≤ min lim s.length → min (lim - 4) (s.length - 4) < 4 →
      (read_id_and_len s lim).1 = .error (.unexpectedEOF none)) := by
  refine ⟨?_, ?_, ?_, ?_⟩
  · intro h
    have hk : min 4 (min lim s.length) = 0 := by omega
    simp [read_id_and_len, read_exact_0, hk]
  · intro h1 h2
    have hn : ¬ l.cur_chunk_read < l.cur_chunk_len := by omega
    have hk : min 4 (min l.takeRem l.stream.length) = 0 := by omega
    simp [RiffListChunk.next, hn, RiffListChunk.nextHeader, read_id_and_len,
      read_exact_0, hk]
  · intro h1 h2
    have hk : min 4 (min lim s.length) = min lim s.length := by omega
    have hlen : (s.take (min lim s.length)).length = min lim s.length := by
      rw [List.length_take]
      omega
    have hz : ¬ min lim s.length = 0 := by omega
    have h4 : ¬ min lim s.length = 4 := by omega
    simp [read_id_and_len, read_exact_0, hk, hlen, hz, h4]
  · intro h1 h2
    have hk : min 4 (min lim s.length) = 4 := by omega
    have hlen : (s.take 4).length = 4 := by
      rw [List.length_take]
      omega
    have hdrop : (s.drop 4).length = s.length - 4 := by
      rw [List.length_drop]
    simp [read_id_and_len, read_exact_0, hk, hlen,
      read_u32_le_short (s.drop 4) (lim - 4) (by rw [hdrop]; omega)]

/-- Witness for C4 at concrete inputs: an exhausted view, an exhausted
list, a 2-byte partial identifier, and a truncated length field. -/
theorem read_id_and_len_header_eof_cases_witness :
    read_id_and_len [9, 9] 0 = (.ok none, [9, 9], 0) ∧
    (wTerminal.next).1 = none ∧
    (read_id_and_len [65, 66] 10).1 = .error (.unexpectedEOF none) ∧
    (read_id_and_len [65, 66, 67, 68, 1, 0] 10).1 = .error (.unexpectedEOF none) :=
  ⟨(read_id_and_len_header_eof_cases [9, 9] 0 wTerminal).1 (by decide),
   (read_id_and_len_header_eof_cases [9, 9] 0 wTerminal).2.1 (by decide) (by decide),
   (read_id_and_len_header_eof_cases [65, 66] 10 wTerminal).2.2.1 (by decide) (by decide),
   (read_id_and_len_header_eof_cases [65, 66, 67, 68, 1, 0] 10 wTerminal).2.2.2
     (by decide) (by decide)⟩

/-- C5: `root` reads a 4-byte identifier and 32-bit length from the start
of the stream; with fewer than 4 identifier bytes (including an empty
stream) it returns an unexpected-end-of-input error; with an identifier
other than `RIFF` it returns the invalid-format error without any child
parsing; otherwise it returns the root list chunk whose type tag is the
next 4 bytes of the payload. -/
theorem root_header_validation (s rest : List Nat) (i0 i1 i2 i3 b0 b1 b2 b3 : Nat) :
    (s.length < 4 → root s = .error (.unexpectedEOF none)) ∧
    ([i0, i1, i2, i3] ≠ RIFF_TAG →
      root (i0 :: i1 :: i2 :: i3 :: b0 :: b1 :: b2 :: b3 :: rest) =
        .error (.invalidFormat "RIFF file header is invalid")) ∧
    (4 ≤ le32 b0 b1 b2 b3 → 4 ≤ rest.length →
      root (RIFF_TAG ++ (b0 :: b1 :: b2 :: b3 :: rest)) =
        .ok { chunk_id := RIFF_TAG
              len := le32 b0 b1 b2 b3
              chunk_type := rest.take 4
              stream := rest.drop 4
              takeRem := le32 b0 b1 b2 b3 - 4
              cur_chunk_len := 0
              cur_chunk_read := 0 }) := by
  refine ⟨?_, ?_, ?_⟩
  · intro h
    rcases s with _ | ⟨a, _ | ⟨b, _ | ⟨c, _ | ⟨d, t⟩⟩⟩⟩
    · simp [root, read_id_and_len, read_exact_0]
    · simp [root, read_id_and_len, read_exact_0]
    · simp [root, read_id_and_len, read_exact_0]
    · simp [root, read_id_and_len, read_exact_0]
    · exfalso
      simp only [List.length_cons] at h
      omega
  · intro h
    have h8 : (8 : Nat) ≤ (i0 :: i1 :: i2 :: i3 :: b0 :: b1 :: b2 :: b3 :: rest).length := by
      simp only [List.length_cons]
      omega
    simp only [root]
    rw [read_id_and_len_cons8 i0 i1 i2 i3 b0 b1 b2 b3 rest _ h8]
    simp [h]
  · intro h1 h2
    have h8 : (8 : Nat) ≤ (RIFF_TAG ++ (b0 :: b1 :: b2 :: b3 :: rest)).length := by
      simp [RIFF_TAG]
    have hcons : RIFF_TAG ++ (b0 :: b1 :: b2 :: b3 :: rest) =
        82 :: 73 :: 70 :: 70 :: b0 :: b1 :: b2 :: b3 :: rest := by
      simp [RIFF_TAG]
    rw [hcons]
    simp only [root]
    rw [read_id_and_len_cons8 82 73 70 70 b0 b1 b2 b3 rest _ (by simp)]
    have h4 : (4 : Nat) ≤ min (le32 b0 b1 b2 b3) rest.length := by omega
    simp only [RIFF_TAG]
    rw [read_exact_0_all rest (le32 b0 b1 b2 b3) 4 h4]
    have hlen : (rest.take 4).length = 4 := by
      rw [List.length_take]
      omega
    simp [hlen]

/-- Witness for C5 at concrete inputs: a 2-byte stream, a stream with the
wrong root tag, and a well-formed root header. -/
theorem root_header_validation_witness :
    root [88, 88] = .error (.unexpectedEOF none) ∧
    root [88, 88, 88, 88, 4, 0, 0, 0, 97, 98, 99, 100] =
      .error (.invalidFormat "RIFF file header is invalid") ∧
    root (RIFF_TAG ++ (8 :: 0 :: 0 :: 0 :: [97, 98, 99, 100, 49, 50, 51, 52])) =
      .ok { chunk_id := RIFF_TAG
            len := le32 8 0 0 0
            chunk_type := [97, 98, 99, 100, 49, 50, 51, 52].take 4
            stream := [97, 98, 99, 100, 49, 50, 51, 52].drop 4
            takeRem := le32 8 0 0 0 - 4
            cur_chunk_len := 0
            cur_chunk_read := 0 } :=
  ⟨(root_header_validation [88, 88] [] 0 0 0 0 0 0 0 0).1 (by decide),
   (root_header_validation [] [97, 98, 99, 100] 88 88 88 88 4 0 0 0).2.1 (by decide),
   (root_header_validation [] [97, 98, 99, 100, 49, 50, 51, 52] 0 0 0 0 8 0 0 0).2.2
     (by decide) (by decide)⟩

/-- C6: `into_list` on a chunk that cannot be a container gives the
original chunk back with no input consumed (the parent state is
unchanged); on a container candidate it reads exactly 4 bytes from the
payload view as the type tag, yielding a list with the cursor state
zeroed, and when fewer than 4 bytes are obtainable it is an
unexpected-end-of-input error. -/
theorem into_list_behaviour (c : RiffChunk) (l : RiffListChunk) :
    (c.can_have_subchunks = false → c.into_list l = (.error c, l)) ∧
    (c.can_have_subchunks = true → 4 ≤ c.takeRem → 4 ≤ l.takeRem →
      4 ≤ l.stream.length →
      c.into_list l =
        (.ok (.ok { chunk_id := c.chunk_id
                    len := c.len
                    chunk_type := l.stream.take 4
                    stream := l.stream.drop 4
                    takeRem := c.takeRem - 4
                    cur_chunk_len := 0
                    cur_chunk_read := 0 }),
         { l with
             stream := l.stream.drop 4
             takeRem := l.takeRem - 4
             cur_chunk_read := l.cur_chunk_read + 4 })) ∧
    (c.can_have_subchunks = true →
      min c.takeRem (min l.takeRem l.stream.length) < 4 →
      (c.into_list l).1 =
        .ok (.error (.unexpectedEOF (some "when reading chunk type of chunk")))) := by
  refine ⟨?_, ?_, ?_⟩
  · intro h
    simp [RiffChunk.into_list, h]
  · intro h h1 h2 h3
    have hk : min 4 (min c.takeRem (min l.takeRem l.stream.length)) = 4 := by omega
    have hlen : (l.stream.take 4).length = 4 := by
      rw [List.length_take]
      omega
    simp [RiffChunk.into_list, h, RiffChunk.into_list_unchecked, chunkRead, hk, hlen]
  · intro h h1
    have hk : min 4 (min c.takeRem (min l.takeRem l.stream.length)) =
        min c.takeRem (min l.takeRem l.stream.length) := by omega
    have hlen : (l.stream.take (min c.takeRem (min l.takeRem l.stream.length))).length =
        min c.takeRem (min l.takeRem l.stream.length) := by
      rw [List.length_take]
      omega
    have h4 : ¬ min c.takeRem (min l.takeRem l.stream.length) = 4 := by omega
    simp [RiffChunk.into_list, h, RiffChunk.into_list_unchecked, chunkRead, hk, hlen, h4]

/-- Witness for C6 at concrete states: a tainted chunk is handed back
unchanged, an untainted `LIST` chunk converts by reading its 4-byte type
tag, and an untainted `LIST` chunk over a 2-byte view fails with
unexpected end of input. -/
theorem into_list_behaviour_witness :
    (wListChunk.contents).into_list wParent = (.error wListChunk.contents, wParent) ∧
    wListChunk.into_list wParent =
      (.ok (.ok { chunk_id := wListChunk.chunk_id
                  len := wListChunk.len
                  chunk_type := wParent.stream.take 4
                  stream := wParent.stream.drop 4
                  takeRem := wListChunk.takeRem - 4
                  cur_chunk_len := 0
                  cur_chunk_read := 0 }),
       { wParent with
           stream := wParent.stream.drop 4
           takeRem := wParent.takeRem - 4
           cur_chunk_read := wParent.cur_chunk_read + 4 }) ∧
    ((wListChunk.into_list wTerminal).1 =
      .ok (.error (.unexpectedEOF (some "when reading chunk type of chunk")))) :=
  ⟨(into_list_behaviour wListChunk.contents wParent).1 (by decide),
   (into_list_behaviour wListChunk wParent).2.1 (by decide) (by decide) (by decide)
     (by decide),
   (into_list_behaviour wListChunk wTerminal).2.2 (by decide) (by decide)⟩

/-- C7: `can_have_subchunks` holds exactly for an untouched chunk whose
identifier is `RIFF` or `LIST`; obtaining the payload view with `contents`
sets the tainted flag even if nothing is read through the view; no
sequence of chunk operations ever clears the flag; and a tainted chunk
never satisfies `can_have_subchunks`. -/
theorem touched_flag_container_rules (c : RiffChunk) (l : RiffListChunk)
    (ops : List ChunkOp) :
    (c.can_have_subchunks = true ↔
      c.tainted = false ∧ (c.chunk_id = RIFF_TAG ∨ c.chunk_id = LIST_TAG)) ∧
    (c.contents).tainted = true ∧
    (c.tainted = true → (applyChunkOps ops c l).1.tainted = true) ∧
    (c.tainted = true → c.can_have_subchunks = false) := by
    refine ⟨?_, rfl, applyChunkOps_tainted_mono ops c l, ?_⟩
    · simp [RiffChunk.can_have_subchunks, Bool.and_eq_true, Bool.or_eq_true]
    · intro h
      simp [RiffChunk.can_have_subchunks, h]

/-- Witness for C7: tainting child `A` of the flat scenario and then
reading through it keeps the flag set and disqualifies it as a
container. -/
theorem touched_flag_container_rules_witness :
    (c8childA.contents.tainted = true) ∧
    (applyChunkOps [ChunkOp.readBytes 2, ChunkOp.readBytes 9]
        c8childA.contents c8list1).1.tainted = true ∧
    c8childA.contents.can_have_subchunks = false :=
  ⟨(touched_flag_container_rules c8childA c8list1 []).2.1,
   (touched_flag_container_rules c8childA.contents c8list1
      [ChunkOp.readBytes 2, ChunkOp.readBytes 9]).2.2.1 rfl,
   (touched_flag_container_rules c8childA.contents c8list1 []).2.2.2 rfl⟩

/-- C8: on the flat scenario stream (root `RIFF`, declared length 37, form
type `abcd`, children `A   `/4/`1234` and `B   `/5/`56789`), `root`
succeeds with exactly those root attributes, the first `next` yields child
`A` (whose payload view yields `1234`), the second yields child `B`
(payload `56789`), and the third returns no-more-children. -/
theorem flat_roundtrip_scenario :
    root c8bytes = .ok c8list0 ∧
    c8list0.chunk_id = RIFF_TAG ∧ c8list0.len = 37 ∧
    c8list0.chunk_type = [97, 98, 99, 100] ∧
    (c8list0.next).1 = some (.ok c8childA) ∧
    c8childA.chunk_id = [65, 32, 32, 32] ∧ c8childA.len = 4 ∧
    (chunkRead c8childA.contents c8list1 100).1 = [49, 50, 51, 52] ∧
    (c8list2.next).1 = some (.ok c8childB) ∧
    c8childB.chunk_id = [66, 32, 32, 32] ∧ c8childB.len = 5 ∧
    (chunkRead c8childB.contents c8list3 100).1 = [53, 54, 55, 56, 57] ∧
    (c8list4.next).1 = none :=
  ⟨rfl, rfl, rfl, rfl, rfl, rfl, rfl, rfl, rfl, rfl, rfl, rfl, rfl⟩

/-- C9: the generic `load` dispatcher tries the decoders in the fixed
order PNG, GIF, WEBP, JPEG, each attempt starting from the beginning of
the source; it returns the first success wrapped in the matching variant,
and when every attempt fails it returns the invalid-format error. -/
theorem load_dispatch_priority {P G J W : Type}
    (pngLoad : List Nat → Except Error P) (gifLoad : List Nat → Except Error G)
    (webpLoad : List Nat → Except Error W) (jpegLoad : List Nat → Except Error J)
    (s : List Nat) (mp : P) (mg : G) (mw : W) (mj : J) (e1 e2 e3 e4 : Error) :
    (pngLoad s = .ok mp →
      load pngLoad gifLoad webpLoad jpegLoad s = .ok (.Png mp)) ∧
    (pngLoad s = .error e1 → gifLoad s = .ok mg →
      load pngLoad gifLoad webpLoad jpegLoad s = .ok (.Gif mg)) ∧
    (pngLoad s = .error e1 → gifLoad s = .error e2 → webpLoad s = .ok mw →
      load pngLoad gifLoad webpLoad jpegLoad s = .ok (.Webp mw)) ∧
    (pngLoad s = .error e1 → gifLoad s = .error e2 → webpLoad s = .error e3 →
      jpegLoad s = .ok mj →
      load pngLoad gifLoad webpLoad jpegLoad s = .ok (.Jpeg mj)) ∧
    (pngLoad s = .error e1 → gifLoad s = .error e2 → webpLoad s = .error e3 →
      jpegLoad s = .error e4 →
      load pngLoad gifLoad webpLoad jpegLoad s =
        .error (.invalidFormat "unknown or unsupported image type")) := by
  refine ⟨?_, ?_, ?_, ?_, ?_⟩
  · intro h1
    simp [load, h1]
  · intro h1 h2
    simp [load, h1, h2]
  · intro h1 h2 h3
    simp [load, h1, h2, h3]
  · intro h1 h2 h3 h4
    simp [load, h1, h2, h3, h4]
  · intro h1 h2 h3 h4
    simp [load, h1, h2, h3, h4]

/-- Witness for C9 with concrete decoders over `Nat` metadata: a stream
every decoder rejects, and one that only the JPEG decoder accepts. -/
theorem load_dispatch_priority_witness :
    load (fun _ => (.error (.invalidFormat "png") : Except Error Nat))
        (fun _ => (.error (.invalidFormat "gif") : Except Error Nat))
        (fun _ => (.error (.invalidFormat "webp") : Except Error Nat))
        (fun _ => (.error (.invalidFormat "jpeg") : Except Error Nat)) [1, 2, 3] =
      .error (.invalidFormat "unknown or unsupported image type") ∧
    load (fun _ => (.error (.invalidFormat "png") : Except Error Nat))
        (fun _ => (.error (.invalidFormat "gif") : Except Error Nat))
        (fun _ => (.error (.invalidFormat "webp") : Except Error Nat))
        (fun _ => (.ok 7 : Except Error Nat)) [1, 2, 3] = .ok (.Jpeg 7) :=
  ⟨(load_dispatch_priority _ _ _ _ [1, 2, 3] 0 0 0 7
      (.invalidFormat "png") (.invalidFormat "gif") (.invalidFormat "webp")
      (.invalidFormat "jpeg")).2.2.2.2 rfl rfl rfl rfl,
   (load_dispatch_priority _ _ _ _ [1, 2, 3] 0 0 0 7
      (.invalidFormat "png") (.invalidFormat "gif") (.invalidFormat "webp")
      (.invalidFormat "jpeg")).2.2.2.1 rfl rfl rfl rfl⟩

/-- C10: `cur_chunk_read ≤ cur_chunk_len` is an invariant: a chunk-producing
`next` resets the cursor (`cur_chunk_read = 0`, `cur_chunk_len` = the
chunk's declared length, the view limit starting equal to it); a read
through the child's view preserves `cur_chunk_read + takeRem ≤
cur_chunk_len` and hence `cur_chunk_read ≤ cur_chunk_len`; under the
invariant the subtraction `cur_chunk_len - cur_chunk_read` performed by
`next` is exact (no underflow), and the counter stays below `2^32`
whenever the declared length does (no overflow). -/
theorem cursor_arithmetic_safety (c c2 : RiffChunk) (l : RiffListChunk) (n : Nat) :
    ((l.next).1 = some (.ok c2) →
      (l.next).2.cur_chunk_read = 0 ∧ (l.next).2.cur_chunk_len = c2.len ∧
        c2.takeRem = c2.len) ∧
    (l.cur_chunk_read + c.takeRem ≤ l.cur_chunk_len →
      (chunkRead c l n).2.2.cur_chunk_read + (chunkRead c l n).2.1.takeRem ≤
        (chunkRead c l n).2.2.cur_chunk_len ∧
      (chunkRead c l n).2.2.cur_chunk_read ≤ (chunkRead c l n).2.2.cur_chunk_len) ∧
    (l.cur_chunk_read ≤ l.cur_chunk_len →
      l.cur_chunk_len - l.cur_chunk_read + l.cur_chunk_read = l.cur_chunk_len) ∧
    (l.cur_chunk_read + c.takeRem ≤ l.cur_chunk_len → l.cur_chunk_len < 2 ^ 32 →
      (chunkRead c l n).2.2.cur_chunk_read < 2 ^ 32) := by
  refine ⟨next_ok_inv l c2, ?_, ?_, ?_⟩
  · intro h
    simp only [chunkRead]
    constructor <;> omega
  · intro h
    omega
  · intro h h32
    simp only [chunkRead]
    omega

/-- Witness for C10: child `A` of the flat scenario straight after
production, with a 3-byte read through its view. -/
theorem cursor_arithmetic_safety_witness :
    ((c8list0.next).2.cur_chunk_read = 0 ∧
      (c8list0.next).2.cur_chunk_len = c8childA.len ∧
      c8childA.takeRem = c8childA.len) ∧
    ((chunkRead c8childA c8list1 3).2.2.cur_chunk_read +
        (chunkRead c8childA c8list1 3).2.1.takeRem ≤
      (chunkRead c8childA c8list1 3).2.2.cur_chunk_len ∧
     (chunkRead c8childA c8list1 3).2.2.cur_chunk_read ≤
      (chunkRead c8childA c8list1 3).2.2.cur_chunk_len) ∧
    (c8list1.cur_chunk_len - c8list1.cur_chunk_read + c8list1.cur_chunk_read =
      c8list1.cur_chunk_len) ∧
    (chunkRead c8childA c8list1 3).2.2.cur_chunk_read < 2 ^ 32 :=
  ⟨(cursor_arithmetic_safety c8childA c8childA c8list0 3).1 rfl,
   (cursor_arithmetic_safety c8childA c8childA c8list1 3).2.1 (by decide),
   (cursor_arithmetic_safety c8childA c8childA c8list1 3).2.2.1 (by decide),
   (cursor_arithmetic_safety c8childA c8childA c8list1 3).2.2.2 (by decide) (by decide)⟩

end Immeta
